import Mathlib

/-!
Shallow embedding of the aspect-based review analysis engine of this
repository (`src/data_collection/aspect_analyzer.py`), together with
theorems checking the specification's statements about it.

External NLP capabilities of the source (the NLTK lemmatizer, the
optional part-of-speech secondary pass and the TextBlob polarity score)
are modelled by an explicit environment `Env` of deterministic
functions, mirroring the module's degraded-capability contract; machine
floats of the source are modelled by exact rationals.  Heterogeneous
Python review records are modelled by `PyVal` / `ReviewLike`.
-/

namespace AspectAnalyzer

/-- Python list-prefix test, specialised to characters
(`needle` is a prefix of `hay`). -/
def prefixAt : List Char → List Char → Bool
  | [], _ => true
  | _ :: _, [] => false
  | a :: as, b :: bs => a = b && prefixAt as bs

/-- Occurrence of `needle` as a contiguous run inside `hay`. -/
def subAt : List Char → List Char → Bool
  | needle, [] => needle.isEmpty
  | needle, c :: rest => prefixAt needle (c :: rest) || subAt needle rest

/-- Python `needle in hay` substring test (`str.__contains__`). -/
def containsSub (hay needle : String) : Bool :=
  subAt needle.data hay.data

/-- Python `not s` emptiness test on strings, via the character list
(the built-in `String.isEmpty` does not reduce in the kernel). -/
def strIsEmpty (s : String) : Bool :=
  s.data.isEmpty

/-- Python `str.lower()` (character-wise, as all source vocabulary is
ASCII). -/
def strLower (s : String) : String :=
  String.mk (s.data.map Char.toLower)

/-- Python `str.strip()`: whitespace removed from both ends. -/
def strTrim (s : String) : String :=
  String.mk (((s.data.dropWhile Char.isWhitespace).reverse.dropWhile Char.isWhitespace).reverse)

/-- Python slicing `s[:n]`. -/
def strTake (s : String) (n : Nat) : String :=
  String.mk (s.data.take n)

/-- Python `str.replace(old, new)` for the single-character pattern the
source uses (`category.replace("_", " ")`). -/
def replaceUnderscore (s : String) : String :=
  String.mk (s.data.map (fun c => if c = '_' then ' ' else c))

/-- Python `sep.join(xs)`. -/
def joinSep (sep : String) : List String → String
  | [] => ""
  | [x] => x
  | x :: y :: t => x ++ sep ++ joinSep sep (y :: t)

/-- Python `str.capitalize()`: first character upper-cased, the rest
lower-cased. -/
def capStr (s : String) : String :=
  match s.data with
  | [] => ""
  | c :: cs => String.mk (c.toUpper :: cs.map Char.toLower)

/-- Splitting a character list at a separator character
(Python `str.split(sep)` with a one-character separator). -/
def splitCharAux (sep : Char) : List Char → List (List Char)
  | [] => [[]]
  | c :: rest =>
    if c = sep then [] :: splitCharAux sep rest
    else
      match splitCharAux sep rest with
      | h :: t => (c :: h) :: t
      | [] => [[c]]

/-- Python `str.title()` restricted to space-separated words, as the
source applies it to category names after `replace("_", " ")`. -/
def titleCase (s : String) : String :=
  joinSep " " ((splitCharAux ' ' s.data).map (fun cs => capStr (String.mk cs)))

/-- Word characters of the `\b\w+\b` token regex in
`_get_sentence_sentiment`. -/
def isWordChar (c : Char) : Bool :=
  c.isAlphanum || c = '_'

/-- Worker for `wordsOf`: collects maximal runs of word characters
(`cur` is the current run, reversed). -/
def wordsGo : List Char → List Char → List String
  | [], cur => if cur.isEmpty then [] else [String.mk cur.reverse]
  | c :: rest, cur =>
    if isWordChar c then wordsGo rest (c :: cur)
    else if cur.isEmpty then wordsGo rest []
    else String.mk cur.reverse :: wordsGo rest []

/-- Python `re.findall(r"\b\w+\b", s)`. -/
def wordsOf (s : String) : List String :=
  wordsGo s.data []

/-- Python `f"{x:.0f}"` applied to the exact non-negative percentage
`100 * num / den` (`den > 0`): round to the nearest integer, ties to
even, rendered in integer arithmetic. -/
def pctFmt (num den : Nat) : String :=
  let q := (100 * num) / den
  let r := (100 * num) % den
  let n :=
    if den < 2 * r then q + 1
    else if 2 * r < den then q
    else if q % 2 = 0 then q else q + 1
  toString n

/-- The polarity threshold `0.2` of `_get_sentence_sentiment`, as a
raw rational (kernel-reducible form of `1/5`). -/
def ratFifth : ℚ := ⟨1, 5, by decide, by decide⟩

/-- Stable descending insertion by key: the element is placed in front
of the first list element whose key is not larger, so earlier elements
win ties. -/
def insertDesc (key : α → Nat) (x : α) : List α → List α
  | [] => [x]
  | y :: ys => if key y ≤ key x then x :: y :: ys else y :: insertDesc key x ys

/-- Stable descending insertion sort by key, modelling
`sorted(xs, key=key, reverse=True)` (equal keys keep encounter order,
as Python's stable sort does). -/
def sortDesc (key : α → Nat) : List α → List α
  | [] => []
  | x :: xs => insertDesc key x (sortDesc key xs)

/-- Python scalar values that can occur in heterogeneous review
records. -/
inductive PyVal where
  | pstr (s : String)
  | pint (n : Int)
  | pbool (b : Bool)
  | pnone
deriving DecidableEq, Repr

/-- Python truthiness for `PyVal`. -/
def pyTruthy : PyVal → Bool
  | .pstr s => !s.isEmpty
  | .pint n => n != 0
  | .pbool b => b
  | .pnone => false

/-- Python `str(v)`. -/
def pyStr : PyVal → String
  | .pstr s => s
  | .pint n => toString n
  | .pbool true => "True"
  | .pbool false => "False"
  | .pnone => "None"

/-- Python `a or b`. -/
def pyOr (a b : PyVal) : PyVal :=
  if pyTruthy a then a else b

/-- A raw review entry: a record (`dict`), or a plain value on which
`_clean_reviews` calls `str`. -/
inductive ReviewLike where
  | rdict (fields : List (String × PyVal))
  | rval (v : PyVal)
deriving DecidableEq, Repr

/-- Python `d.get(k)` with default `None` (first binding wins). -/
def dictGet (fields : List (String × PyVal)) (k : String) : PyVal :=
  (fields.lookup k).getD .pnone

/-- The candidate record fields tried by `_clean_reviews`, in source
order. -/
def textFieldOrder : List String :=
  ["review_text", "review", "text", "body", "content"]

/-- The text `_clean_reviews` derives from one raw entry: the `or`-chain
over the candidate fields for records, `str(r)` otherwise, then
`str(...).strip()`. -/
def rawText : ReviewLike → String
  | .rdict f =>
      strTrim (pyStr (pyOr (dictGet f "review_text")
        (pyOr (dictGet f "review")
          (pyOr (dictGet f "text")
            (pyOr (dictGet f "body")
              (pyOr (dictGet f "content") (.pstr "")))))))
  | .rval v => strTrim (pyStr v)

/-- `FlipkartReviewAnalyzer._clean_reviews`. -/
def clean_reviews (reviews : List ReviewLike) : List String :=
  reviews.filterMap (fun r =>
    let t := rawText r
    if strIsEmpty t then none else some t)

/-- `BRAND_TO_CATEGORY` of the source (insertion order is the iteration
order of the brand loop). -/
def BRAND_TO_CATEGORY : List (String × String) := [
  ("Samsung", "mobile"), ("Realme", "mobile"), ("Vivo", "mobile"), ("Oppo", "mobile"),
  ("OnePlus", "mobile"), ("Apple", "mobile"), ("Motorola", "mobile"), ("Xiaomi", "mobile"),
  ("HP", "laptop"), ("Dell", "laptop"), ("Lenovo", "laptop"), ("Asus", "laptop"), ("Acer", "laptop"),
  ("Sony", "television"), ("LG", "television"), ("TCL", "television"),
  ("Boat", "audio"), ("Noise", "audio"), ("JBL", "audio"),
  ("Bata", "footwear"), ("Sparx", "footwear"), ("Puma", "footwear"), ("Nike", "footwear"),
  ("Whirlpool", "home_appliance"), ("Godrej", "home_appliance"), ("Haier", "home_appliance")]

/-- `COMPETITOR_MAP` of the source. -/
def COMPETITOR_MAP : List (String × List String) := [
  ("mobile", ["Samsung", "Realme", "Vivo", "Oppo", "OnePlus", "Apple", "Motorola", "Xiaomi"]),
  ("laptop", ["HP", "Dell", "Lenovo", "Asus", "Acer", "Apple"]),
  ("television", ["Sony", "LG", "TCL", "Samsung", "Mi"]),
  ("audio", ["Boat", "Noise", "JBL", "Sony", "Realme"]),
  ("footwear", ["Bata", "Sparx", "Puma", "Nike", "Adidas", "Campus"]),
  ("fashion", ["Zara", "H&M", "Max", "Allen Solly", "Peter England"]),
  ("home_appliance", ["Whirlpool", "Godrej", "Haier", "LG", "Samsung"])]

/-- `detect_product_category` of the source: brand lookup first, then
the keyword `if`/`elif` chain, else `"general"`. -/
def detect_product_category (product_name : String) : String :=
  let n := strLower product_name
  match BRAND_TO_CATEGORY.find? (fun bc => containsSub n (strLower bc.1)) with
  | some bc => bc.2
  | none =>
    if ["phone", "mobile", "smartphone", "5g"].any (fun k => containsSub n k) then "mobile"
    else if ["laptop", "notebook", "macbook", "chromebook"].any (fun k => containsSub n k) then "laptop"
    else if ["tv", "television", "smart tv", "qled"].any (fun k => containsSub n k) then "television"
    else if ["earphone", "headphone", "earbud", "speaker", "soundbar"].any (fun k => containsSub n k) then "audio"
    else if ["shoe", "slipper", "sandal", "boot", "sneaker"].any (fun k => containsSub n k) then "footwear"
    else if ["shirt", "pant", "jean", "dress", "tshirt", "kurti"].any (fun k => containsSub n k) then "fashion"
    else if ["refrigerator", "washing", "microwave", "ac", "cooler"].any (fun k => containsSub n k) then "home_appliance"
    else "general"

/-- Result record of `recommend_competitors`. -/
structure RecData where
  category : String
  detected_brand : Option String
  competitors : List String
deriving DecidableEq, Repr

/-- `recommend_competitors` of the source. -/
def recommend_competitors (product_name : String) : RecData :=
  let category := detect_product_category product_name
  let competitors := (COMPETITOR_MAP.lookup category).getD []
  let detected_brand : Option String :=
    (BRAND_TO_CATEGORY.find? (fun bc =>
      containsSub (strLower product_name) (strLower bc.1))).map Prod.fst
  let competitors : List String :=
    match detected_brand with
    | some b => competitors.filter (fun c => strLower c ≠ strLower b)
    | none => competitors
  ⟨category, detected_brand, competitors.take 5⟩

/-- `self.aspect_keywords` after the appliance-specific `update` (new
keys are appended at the end, as in a Python dict). -/
def aspect_keywords : List (String × List String) := [
  ("battery", ["battery", "batteries", "charge", "charges", "charging", "charged",
    "backup", "power", "mah", "juice", "drain", "draining", "life"]),
  ("display", ["display", "displays", "screen", "screens", "brightness", "bright",
    "touch", "resolution", "amoled", "lcd", "oled", "refresh", "panel"]),
  ("performance", ["performance", "perform", "performs", "speed", "fast", "faster",
    "slow", "slower", "lag", "lags", "lagging", "laggy", "processor",
    "ram", "smooth", "smoothly", "multitask", "multitasking", "hang", "hangs"]),
  ("design", ["design", "designed", "look", "looks", "looking", "build", "built",
    "quality", "premium", "body", "finish", "finishing", "aesthetic",
    "aesthetics", "appearance", "sleek"]),
  ("camera", ["camera", "cameras", "photo", "photos", "picture", "pictures", "pic",
    "video", "videos", "selfie", "selfies", "lens", "megapixel", "mp",
    "clarity", "zoom", "zooming", "shot", "shots"]),
  ("sound", ["sound", "sounds", "audio", "speaker", "speakers", "music", "volume",
    "loud", "loudness", "headphone", "headphones", "bass", "treble", "clarity"]),
  ("price", ["price", "prices", "priced", "value", "worth", "money", "expensive",
    "cheap", "cheaper", "affordable", "cost", "costs", "costly", "vfm",
    "overpriced", "budget"]),
  ("software", ["software", "ui", "update", "updates", "updated", "android", "ios",
    "interface", "app", "apps", "system", "bloatware", "os"]),
  ("heating", ["heat", "heats", "heated", "heating", "warm", "warmer", "hot",
    "hotter", "temperature", "thermal", "overheat", "overheating"]),
  ("durability", ["durable", "durability", "lasting", "last", "lasts", "sturdy",
    "fragile", "break", "breaks", "broken", "scratch", "scratches",
    "scratched"]),
  ("delivery", ["delivery", "delivered", "shipping", "shipped", "packaging",
    "package", "packed", "box", "boxed", "received", "receive"]),
  ("service", ["service", "services", "support", "warranty", "replacement",
    "replace", "customer", "care", "helpline"]),
  ("cooling", ["cool", "cooling", "chill", "chilling", "cold", "temperature", "hot room", "heat wave"]),
  ("power_consumption", ["power", "electricity", "units", "consumption", "energy", "efficient", "inverter", "star rating"]),
  ("noise", ["noise", "noisy", "silent", "quiet", "sound", "humming", "vibration"]),
  ("installation", ["install", "installation", "installed", "technician", "fitting", "mounting", "pipes", "drain", "outdoor unit"]),
  ("remote", ["remote", "remote control", "buttons", "display panel", "led panel"]),
  ("airflow", ["airflow", "swing", "throw", "vent", "air throw", "fan speed"]),
  ("compressor", ["compressor", "coolant", "gas", "refrigerant", "condenser", "evaporator"])]

/-- `self.category_aspects` of the source. -/
def category_aspects : List (String × List String) := [
  ("mobile", ["battery", "display", "performance", "design", "camera", "sound",
    "price", "software", "heating", "durability", "delivery", "service"]),
  ("laptop", ["battery", "display", "performance", "design", "sound", "price",
    "software", "heating", "durability", "delivery", "service"]),
  ("television", ["display", "sound", "price", "design", "durability", "delivery", "service"]),
  ("audio", ["sound", "price", "design", "durability", "delivery", "service"]),
  ("footwear", ["price", "design", "durability", "delivery", "service"]),
  ("fashion", ["price", "design", "durability", "delivery", "service"]),
  ("home_appliance", ["cooling", "power_consumption", "noise", "installation", "service",
    "durability", "price", "design", "delivery"]),
  ("general", ["price", "design", "durability", "delivery", "service"])]

/-- `self.positive_words` of the source. -/
def positive_words : List String :=
  ["good", "great", "excellent", "amazing", "fantastic", "love", "loved", "best",
   "awesome", "perfect", "superb", "outstanding", "brilliant", "nice", "satisfied",
   "happy", "impressed", "impressive", "recommend", "recommended", "solid", "worth",
   "pleased", "delighted", "wonderful", "fabulous", "incredible", "superior", "top"]

/-- `self.negative_words` of the source. -/
def negative_words : List String :=
  ["bad", "poor", "terrible", "worst", "awful", "disappointing", "disappointed",
   "useless", "waste", "pathetic", "horrible", "issue", "issues", "problem",
   "problems", "defect", "defective", "broken", "regret", "avoid", "faulty",
   "damaged", "fail", "fails", "failed", "cheap", "hate", "hated", "never", "not"]

/-- Sentence-level sentiment labels. -/
inductive Sentiment where
  | positive
  | negative
  | neutral
deriving DecidableEq, Repr

/-- The external NLP capabilities the analyzer calls into, modelled as
deterministic functions: `lemmatize` is `_lemmatize_text` (identity when
NLTK is unavailable), `polarity` is `TextBlob(text).sentiment.polarity`,
and `posAspects` is the optional `_extract_pos_aspects` secondary pass
(`none` when NLTK is unavailable). -/
structure Env where
  lemmatize : String → String
  polarity : String → ℚ
  posAspects : Option (String → List (String × Sentiment))

/-- Degraded-capability environment: no lemmatizer, no part-of-speech
pass, polarity constantly zero. -/
def env0 : Env :=
  ⟨fun t => t, fun _ => 0, none⟩

/-- `FlipkartReviewAnalyzer._get_sentence_sentiment`. -/
def get_sentence_sentiment (env : Env) (t : String) : Sentiment :=
  let lower := strLower t
  let ws := wordsOf lower
  let posCount := (ws.filter (fun w => positive_words.contains w)).length
  let negCount := (ws.filter (fun w => negative_words.contains w)).length
  let pol := env.polarity t
  if posCount > negCount ∧ pol ≥ 0 then .positive
  else if negCount > posCount ∧ pol ≤ 0 then .negative
  else if pol > ratFifth then .positive
  else if pol < -ratFifth then .negative
  else .neutral

/-- Per-review sentiment counts, as accumulated by
`_generate_overall_feedback` and `_analyze_theme_sentiment`
(`positive`, `negative`, `neutral`). -/
def countSents (env : Env) (l : List String) : Nat × Nat × Nat :=
  l.foldl (fun acc r =>
    match get_sentence_sentiment env r with
    | .positive => (acc.1 + 1, acc.2.1, acc.2.2)
    | .negative => (acc.1, acc.2.1 + 1, acc.2.2)
    | .neutral => (acc.1, acc.2.1, acc.2.2 + 1)) (0, 0, 0)

/-- The per-aspect accumulator of `_analyze_aspects`. -/
structure Tally where
  positive : Nat
  negative : Nat
  neutral : Nat
  mentions : List String
deriving DecidableEq, Repr

/-- The zero tally a `defaultdict` entry starts from. -/
def emptyTally : Tally := ⟨0, 0, 0, []⟩

/-- Total mentions of a tally. -/
def totalOf (t : Tally) : Nat := t.positive + t.negative + t.neutral

/-- One increment of a tally plus the appended excerpt. -/
def Tally.bump (t : Tally) (s : Sentiment) (m : String) : Tally :=
  match s with
  | .positive => { t with positive := t.positive + 1, mentions := t.mentions ++ [m] }
  | .negative => { t with negative := t.negative + 1, mentions := t.mentions ++ [m] }
  | .neutral => { t with neutral := t.neutral + 1, mentions := t.mentions ++ [m] }

/-- `aspect_data[name][sentiment] += 1` on a `defaultdict` kept as an
insertion-ordered association list: update in place, or append a fresh
entry. -/
def bumpAspect : List (String × Tally) → String → Sentiment → String → List (String × Tally)
  | [], name, s, m => [(name, emptyTally.bump s m)]
  | (k, t) :: rest, name, s, m =>
    if k = name then (k, t.bump s m) :: rest
    else (k, t) :: bumpAspect rest name s m

/-- The body of the per-review loop of `_analyze_aspects`: keyword
matching against the lowercase and lemmatized forms, then the optional
part-of-speech pass. -/
def processReview (env : Env) (active : List String) (data : List (String × Tally))
    (review : String) : List (String × Tally) :=
  if strIsEmpty review then data
  else
    let lower := strLower review
    let lemm := env.lemmatize review
    let sent := get_sentence_sentiment env review
    let excerpt := strTake review 150
    let d1 := aspect_keywords.foldl (fun d kv =>
      if active.contains kv.1 ∧
          kv.2.any (fun kw => containsSub lower (strLower kw) || containsSub lemm (strLower kw)) then
        bumpAspect d kv.1 sent excerpt
      else d) data
    match env.posAspects with
    | none => d1
    | some f => (f review).foldl (fun d p => bumpAspect d p.1 p.2 excerpt) d1

/-- The positive/negative/neutral distribution reported per aspect. -/
structure Dist where
  positive : Nat
  negative : Nat
  neutral : Nat
deriving DecidableEq, Repr

/-- One formatted aspect verdict.  `count` and `distribution` are
optional because the synthesized `General` entry (and the `total == 0`
branch of `_format_aspect_result`) omit them in the source. -/
structure AspectVerdict where
  sentiment : String
  reason : String
  count : Option Nat
  distribution : Option Dist
deriving DecidableEq, Repr

/-- `FlipkartReviewAnalyzer._generate_aspect_reason`. -/
def generate_aspect_reason (aspect : String) (sentiment : String) (t : Tally) : String :=
  let total := totalOf t
  if sentiment = "positive" then
    "Users praised " ++ aspect ++ " in " ++ toString t.positive ++ "/" ++ toString total ++ " mentions"
  else if sentiment = "negative" then
    "Users complained about " ++ aspect ++ " in " ++ toString t.negative ++ "/" ++ toString total ++ " mentions"
  else if sentiment = "neutral" then
    "Mixed opinions on " ++ aspect ++ " across " ++ toString total ++ " mentions"
  else "Mentioned " ++ toString total ++ " times"

/-- `FlipkartReviewAnalyzer._format_aspect_result`. -/
def format_aspect_result (name : String) (t : Tally) : AspectVerdict :=
  let total := totalOf t
  if total = 0 then
    { sentiment := "neutral", reason := "Not mentioned", count := some 0, distribution := none }
  else
    -- `pos_ratio > 0.5` / `neg_ratio > 0.5` of the source, in exact
    -- cross-multiplied integer form
    let s :=
      if total < 2 * t.positive then "positive"
      else if total < 2 * t.negative then "negative"
      else "neutral"
    { sentiment := s, reason := generate_aspect_reason name s t,
      count := some total,
      distribution := some ⟨t.positive, t.negative, t.neutral⟩ }

/-- Python `dict.__setitem__` on an insertion-ordered association list:
replace in place, or append. -/
def dictSet : List (String × α) → String → α → List (String × α)
  | [], k, v => [(k, v)]
  | (k0, v0) :: rest, k, v =>
    if k0 = k then (k0, v) :: rest else (k0, v0) :: dictSet rest k v

/-- The synthesized `General` verdict of `_analyze_aspects` (only
`sentiment` and `reason` fields in the source). -/
def generalVerdict : AspectVerdict :=
  { sentiment := "neutral", reason := "No specific aspects identified in reviews",
    count := none, distribution := none }

/-- The active-aspect set of `_analyze_aspects`: the category's entry
of `category_aspects` when the category is non-empty and known, else
all registered aspect names. -/
def activeFor (category : String) : List String :=
  match (if strIsEmpty category then none else category_aspects.lookup category) with
  | some l => l
  | none => aspect_keywords.map (·.1)

/-- The review loop of `_analyze_aspects`: fold `processReview` over
the cleaned reviews starting from the empty `defaultdict`. -/
def accumulate (env : Env) (active : List String) (reviews : List String) :
    List (String × Tally) :=
  reviews.foldl (fun d r => processReview env active d r) []

/-- The finalization loop of `_analyze_aspects`: keep tallies with at
least one mention, capitalize the key and format the verdict. -/
def finalizeAspects (data : List (String × Tally)) : List (String × AspectVerdict) :=
  data.foldl (fun acc kv =>
    if 1 ≤ totalOf kv.2 then dictSet acc (capStr kv.1) (format_aspect_result kv.1 kv.2)
    else acc) []

/-- `FlipkartReviewAnalyzer._analyze_aspects`. -/
def analyze_aspects (env : Env) (reviews : List String) (category : String) :
    List (String × AspectVerdict) :=
  let final := finalizeAspects (accumulate env (activeFor category) reviews)
  if final.isEmpty then [("General", generalVerdict)] else final

/-- One extracted theme of `_extract_key_themes`. -/
structure Theme where
  theme : String
  sentiment : String
  reason : String
  mention_count : Nat
deriving DecidableEq, Repr

/-- The `theme_patterns` table of `_extract_key_themes`. -/
def theme_patterns : List (String × List String) := [
  ("Value for Money", ["value", "price", "worth", "money", "vfm"]),
  ("Build Quality", ["quality", "build", "premium", "material", "construction"]),
  ("User Experience", ["experience", "easy", "user", "interface", "usability"]),
  ("Reliability", ["reliable", "durable", "lasting", "trust", "dependable"]),
  ("After Sales", ["service", "support", "warranty", "replacement", "customer"])]

/-- `FlipkartReviewAnalyzer._analyze_theme_sentiment` (sentiment,
reason). -/
def analyze_theme_sentiment (env : Env) (mentions : List String) : String × String :=
  let c := countSents env mentions
  let total := c.1 + c.2.1 + c.2.2
  if c.1 > c.2.1 then
    ("positive", "Positive feedback in " ++ toString c.1 ++ "/" ++ toString total ++ " reviews")
  else if c.2.1 > c.1 then
    ("negative", "Concerns raised in " ++ toString c.2.1 ++ "/" ++ toString total ++ " reviews")
  else
    ("neutral", "Mixed opinions across " ++ toString total ++ " reviews")

/-- `FlipkartReviewAnalyzer._extract_key_themes`. -/
def extract_key_themes (env : Env) (reviews : List String) : List Theme :=
  let themes := theme_patterns.filterMap (fun nk =>
    let ms := reviews.filter (fun r => nk.2.any (fun k => containsSub (strLower r) k))
    if 1 ≤ ms.length then
      let s := analyze_theme_sentiment env ms
      some ⟨nk.1, s.1, s.2, ms.length⟩
    else none)
  (sortDesc (fun t => t.mention_count) themes).take 5

/-- `FlipkartReviewAnalyzer._generate_overall_feedback`. -/
def generate_overall_feedback (env : Env) (reviews : List String)
    (aspects : List (String × AspectVerdict)) : String :=
  let c := countSents env reviews
  -- `total = sum(...) or 1`; the percentage tests `pos_pct > 60` and
  -- `neg_pct > 50` are put in exact cross-multiplied integer form
  let total := if c.1 + c.2.1 + c.2.2 = 0 then 1 else c.1 + c.2.1 + c.2.2
  let positives := (aspects.filter (fun kv => kv.2.sentiment = "positive")).map (·.1)
  let negatives := (aspects.filter (fun kv => kv.2.sentiment = "negative")).map (·.1)
  let feedback :=
    if 60 * total < 100 * c.1 then
      "Highly recommended product with " ++ pctFmt c.1 total ++ "% positive reviews. "
      ++ (if positives.isEmpty then ""
          else "Strong points: " ++ joinSep ", " (positives.take 3) ++ ". ")
      ++ (if negatives.isEmpty then ""
          else "Minor concerns: " ++ joinSep ", " (negatives.take 2) ++ ".")
    else if 50 * total < 100 * c.2.1 then
      "Product has significant issues (" ++ pctFmt c.2.1 total ++ "% negative reviews). "
      ++ (if negatives.isEmpty then ""
          else "Main problems: " ++ joinSep ", " (negatives.take 3) ++ ". ")
      ++ "Consider alternatives carefully."
    else
      "Mixed reviews (" ++ pctFmt c.1 total ++ "% positive, " ++ pctFmt c.2.1 total ++ "% negative). "
      ++ (if positives.isEmpty then ""
          else "Strengths: " ++ joinSep ", " (positives.take 2) ++ ". ")
      ++ (if negatives.isEmpty then ""
          else "Weaknesses: " ++ joinSep ", " (negatives.take 2) ++ ".")
  strTrim feedback

/-- Sort key of `_build_summary` (`x[1].get('count', 0)`). -/
def countKey (kv : String × AspectVerdict) : Nat := kv.2.count.getD 0

/-- One line of `_build_summary`. -/
def bulletLine (kv : String × AspectVerdict) : String :=
  "• " ++ kv.1 ++ ": " ++ capStr kv.2.sentiment ++ " - " ++ kv.2.reason

/-- `FlipkartReviewAnalyzer._build_summary`. -/
def build_summary (aspects : List (String × AspectVerdict)) : String :=
  let lines := ((sortDesc countKey aspects).take 5).map bulletLine
  if lines.isEmpty then "Limited feedback available" else joinSep "\n" lines

/-- One competitor recommendation entry. -/
structure Recommendation where
  name : String
  reason : String
  category : String
deriving DecidableEq, Repr

/-- `FlipkartReviewAnalyzer._generate_competitor_reason` (the `brand`
parameter is unused in the source body as well). -/
def generate_competitor_reason (brand category : String) (weak : List String) (index : Nat) : String :=
  let _ := brand
  let base :=
    match index with
    | 0 => "Alternative " ++ category ++ " option with established brand reputation"
    | 1 => "Known for reliability in the " ++ category ++ " segment"
    | 2 => "Popular choice offering competitive features"
    | 3 => "Budget-friendly alternative in " ++ category ++ " category"
    | _ => "Alternative " ++ category ++ " option"
  if weak.contains "battery" then base ++ " - known for better battery performance"
  else if weak.contains "camera" then base ++ " - strong camera capabilities"
  else if weak.contains "performance" then base ++ " - superior processing power"
  else base

/-- `FlipkartReviewAnalyzer._build_competitor_recommendations`. -/
def build_competitor_recommendations (category : String) (competitors : List String)
    (aspects : List (String × AspectVerdict)) : List Recommendation :=
  let weak := (aspects.filter (fun kv => kv.2.sentiment = "negative")).map (fun kv => strLower kv.1)
  (competitors.take 4).enum.map (fun ic =>
    ⟨ic.2 ++ " " ++ titleCase (replaceUnderscore category) ++ " Series",
     generate_competitor_reason ic.2 category weak ic.1,
     category⟩)

/-- `FlipkartReviewAnalyzer._calculate_confidence`. -/
def calculate_confidence (reviews : List String)
    (aspects : List (String × AspectVerdict)) : String :=
  let reviewCount := reviews.length
  let aspectCount := (aspects.filter (fun kv => kv.1 ≠ "General")).length
  if reviewCount ≥ 20 ∧ aspectCount ≥ 5 then "High"
  else if reviewCount ≥ 10 ∧ aspectCount ≥ 3 then "Medium"
  else "Low"

/-- The structured response of `analyze_reviews`, field for field. -/
structure AnalysisResult where
  product_name : String
  category : String
  overall_feedback : String
  aspects : List (String × AspectVerdict)
  summary : String
  key_themes : List Theme
  recommended_products : List Recommendation
  review_count : Nat
  analysis_confidence : String
deriving DecidableEq, Repr

/-- `FlipkartReviewAnalyzer._empty_analysis`. -/
def empty_analysis (product_name : String) : AnalysisResult :=
  { product_name := product_name
    category := detect_product_category product_name
    overall_feedback := "No reviews available for analysis"
    aspects := []
    summary := "No customer feedback found"
    key_themes := []
    recommended_products := []
    review_count := 0
    analysis_confidence := "None" }

/-- The non-empty-input body of `analyze_reviews`. -/
def analyze_reviews_core (env : Env) (product_name : String) (reviews : List ReviewLike) :
    AnalysisResult :=
  let recData := recommend_competitors product_name
  let category := recData.category
  let competitors := recData.competitors
  let clean := clean_reviews reviews
  let aspects := analyze_aspects env clean category
  let overall := generate_overall_feedback env clean aspects
  let themes := extract_key_themes env clean
  let recs := build_competitor_recommendations category competitors aspects
  { product_name := product_name
    category := category
    overall_feedback := overall
    aspects := aspects
    summary := build_summary aspects
    key_themes := themes
    recommended_products := recs
    review_count := clean.length
    analysis_confidence := calculate_confidence clean aspects }

/-- `FlipkartReviewAnalyzer.analyze_reviews`. -/
def analyze_reviews (env : Env) (product_name : String) (reviews : List ReviewLike) :
    AnalysisResult :=
  if reviews.isEmpty then empty_analysis product_name
  else analyze_reviews_core env product_name reviews

/-- First-match lookup over a keyword table, used by the spec-side
category detectors. -/
def keywordLookup : List (List String × String) → String → String
  | [], _ => "general"
  | row :: rest, n =>
    if row.1.any (fun k => containsSub n k) then row.2 else keywordLookup rest n

/-- Modelled from the spec (claim C6): the category keyword lists
exactly as the specification enumerates them. -/
def spec_keyword_table : List (List String × String) := [
  (["phone", "mobile", "smartphone"], "mobile"),
  (["laptop", "notebook", "macbook", "chromebook"], "laptop"),
  (["tv", "television", "qled"], "television"),
  (["earphone", "headphone", "earbud", "speaker", "soundbar"], "audio"),
  (["shoe", "slipper", "sandal", "boot", "sneaker"], "footwear"),
  (["shirt", "pant", "jean", "dress", "tshirt", "kurti"], "fashion"),
  (["refrigerator", "washing", "microwave", "ac", "cooler"], "home_appliance")]

/-- Category detection exactly as claim C6 words it: the category of
the first brand of the fixed table occurring case-insensitively in the
product name, else the first matching keyword list of the spec's
enumeration in the fixed order, else `"general"`. -/
def detect_category_claim (product_name : String) : String :=
  let n := strLower product_name
  match BRAND_TO_CATEGORY.find? (fun bc => containsSub n (strLower bc.1)) with
  | some bc => bc.2
  | none => keywordLookup spec_keyword_table n

/-- The amended keyword table: claim C6's enumeration with `"5g"` added
to the mobile list — the only behavioural difference the code forces
(the code's extra `"smart tv"` television keyword is subsumed by
`"tv"`). -/
def amended_keyword_table : List (List String × String) := [
  (["phone", "mobile", "smartphone", "5g"], "mobile"),
  (["laptop", "notebook", "macbook", "chromebook"], "laptop"),
  (["tv", "television", "qled"], "television"),
  (["earphone", "headphone", "earbud", "speaker", "soundbar"], "audio"),
  (["shoe", "slipper", "sandal", "boot", "sneaker"], "footwear"),
  (["shirt", "pant", "jean", "dress", "tshirt", "kurti"], "fashion"),
  (["refrigerator", "washing", "microwave", "ac", "cooler"], "home_appliance")]

/-- Category detection as amended claim C6 words it (keyword table with
`"5g"` included for mobile). -/
def detect_category_amended (product_name : String) : String :=
  let n := strLower product_name
  match BRAND_TO_CATEGORY.find? (fun bc => containsSub n (strLower bc.1)) with
  | some bc => bc.2
  | none => keywordLookup amended_keyword_table n

/-- Competitor recommendations exactly as claim C9 words them: the
competitor-table entries for the detected category, minus the brand
detected in the product name, first four in table order, each with its
positional rationale and at most one weak-aspect clause. -/
def recommend_products_spec (product_name : String)
    (aspects : List (String × AspectVerdict)) : List Recommendation :=
  let category := detect_product_category product_name
  let table := (COMPETITOR_MAP.lookup category).getD []
  let detected : Option String :=
    (BRAND_TO_CATEGORY.find? (fun bc =>
      containsSub (strLower product_name) (strLower bc.1))).map Prod.fst
  let remaining : List String :=
    match detected with
    | some b => table.filter (fun c => strLower c ≠ strLower b)
    | none => table
  let weak := (aspects.filter (fun kv => kv.2.sentiment = "negative")).map (fun kv => strLower kv.1)
  (remaining.take 4).enum.map (fun ic =>
    ⟨ic.2 ++ " " ++ titleCase (replaceUnderscore category) ++ " Series",
     generate_competitor_reason ic.2 category weak ic.1,
     category⟩)

/-! ### Helper lemmas -/

theorem prefixAt_iff : ∀ nd hay : List Char, prefixAt nd hay = true ↔ nd <+: hay
  | [], hay => by simp [prefixAt]
  | c :: nd, [] => by simp [prefixAt]
  | c :: nd, d :: hay => by
    simp [prefixAt, Bool.and_eq_true, decide_eq_true_eq, prefixAt_iff nd hay,
      List.cons_prefix_cons]

theorem subAt_iff : ∀ nd hay : List Char, subAt nd hay = true ↔ nd <:+: hay
  | nd, [] => by simp [subAt, List.infix_nil, List.isEmpty_iff]
  | nd, c :: hay => by
    simp [subAt, Bool.or_eq_true, prefixAt_iff, subAt_iff nd hay, List.infix_cons_iff]

theorem containsSub_trans {n a b : String} (hab : a.data <:+: b.data)
    (h : containsSub n b = true) : containsSub n a = true := by
  rw [containsSub, subAt_iff] at h ⊢
  exact hab.trans h

theorem mem_insertDesc (key : α → Nat) (x y : α) :
    ∀ l : List α, y ∈ insertDesc key x l ↔ y = x ∨ y ∈ l
  | [] => by simp [insertDesc]
  | z :: zs => by
    by_cases h : key z ≤ key x
    · rw [insertDesc, if_pos h]
      simp
    · rw [insertDesc, if_neg h]
      simp [mem_insertDesc key x y zs]
      tauto

theorem length_insertDesc (key : α → Nat) (x : α) :
    ∀ l : List α, (insertDesc key x l).length = l.length + 1
  | [] => by simp [insertDesc]
  | z :: zs => by
    by_cases h : key z ≤ key x
    · rw [insertDesc, if_pos h]
      simp
    · rw [insertDesc, if_neg h]
      simp [length_insertDesc key x zs]

theorem pairwise_insertDesc (key : α → Nat) (x : α) :
    ∀ l : List α, l.Pairwise (fun a b => key b ≤ key a) →
      (insertDesc key x l).Pairwise (fun a b => key b ≤ key a)
  | [], _ => by simp [insertDesc]
  | z :: zs, h => by
    rcases List.pairwise_cons.mp h with ⟨hz, hzs⟩
    by_cases hk : key z ≤ key x
    · rw [insertDesc, if_pos hk]
      refine List.pairwise_cons.mpr ⟨?_, h⟩
      intro b hb
      rcases List.mem_cons.mp hb with rfl | hb
      · exact hk
      · exact le_trans (hz b hb) hk
    · rw [insertDesc, if_neg hk]
      refine List.pairwise_cons.mpr ⟨?_, pairwise_insertDesc key x zs hzs⟩
      intro b hb
      rcases (mem_insertDesc key x b zs).mp hb with rfl | hb
      · exact le_of_not_le hk
      · exact hz b hb

theorem mem_sortDesc (key : α → Nat) (y : α) :
    ∀ l : List α, y ∈ sortDesc key l ↔ y ∈ l
  | [] => by simp [sortDesc]
  | x :: xs => by
    rw [sortDesc, mem_insertDesc, mem_sortDesc key y xs]
    simp

theorem length_sortDesc (key : α → Nat) :
    ∀ l : List α, (sortDesc key l).length = l.length
  | [] => by simp [sortDesc]
  | x :: xs => by
    rw [sortDesc, length_insertDesc, length_sortDesc key xs]
    simp

theorem pairwise_sortDesc (key : α → Nat) :
    ∀ l : List α, (sortDesc key l).Pairwise (fun a b => key b ≤ key a)
  | [] => by simp [sortDesc]
  | x :: xs => pairwise_insertDesc key x _ (pairwise_sortDesc key xs)

theorem foldl_inv {P : β → Prop} (f : β → α → β)
    (hf : ∀ b a, P b → P (f b a)) : ∀ (l : List α) (b : β), P b → P (l.foldl f b)
  | [], _, hb => hb
  | a :: l, b, hb => foldl_inv f hf l (f b a) (hf b a hb)

theorem mem_dictSet (k : String) (v : α) :
    ∀ (l : List (String × α)) (kv : String × α),
      kv ∈ dictSet l k v → kv = (k, v) ∨ kv ∈ l
  | [], kv => by simp [dictSet]
  | (k0, v0) :: rest, kv => by
    by_cases h : k0 = k
    · subst h
      rw [dictSet, if_pos rfl]
      intro hm
      rcases List.mem_cons.mp hm with rfl | hm
      · exact Or.inl rfl
      · exact Or.inr (List.mem_cons_of_mem _ hm)
    · rw [dictSet, if_neg h]
      intro hm
      rcases List.mem_cons.mp hm with rfl | hm
      · exact Or.inr (List.mem_cons_self _ _)
      · rcases mem_dictSet k v rest kv hm with h1 | h1
        · exact Or.inl h1
        · exact Or.inr (List.mem_cons_of_mem _ h1)

theorem totalOf_bump (t : Tally) (s : Sentiment) (m : String) :
    totalOf (t.bump s m) = totalOf t + 1 := by
  cases s <;> simp [Tally.bump, totalOf] <;> omega

/-- The tally invariant: every accumulated entry has at least one
mention. -/
def tallyInv (d : List (String × Tally)) : Prop :=
  ∀ kv ∈ d, 1 ≤ totalOf kv.2

theorem tallyInv_bumpAspect (name : String) (s : Sentiment) (m : String) :
    ∀ d : List (String × Tally), tallyInv d → tallyInv (bumpAspect d name s m) := by
  intro d
  induction d with
  | nil =>
    intro _
    unfold tallyInv
    intro kv hkv
    rw [bumpAspect] at hkv
    rcases List.mem_singleton.mp hkv with rfl
    simp [totalOf_bump]
  | cons head rest ih =>
    intro h
    obtain ⟨k, t⟩ := head
    unfold tallyInv
    intro kv hkv
    rw [bumpAspect] at hkv
    by_cases hk : k = name
    · rw [if_pos hk] at hkv
      rcases List.mem_cons.mp hkv with rfl | hkv
      · simp [totalOf_bump]
      · exact h kv (List.mem_cons_of_mem _ hkv)
    · rw [if_neg hk] at hkv
      rcases List.mem_cons.mp hkv with rfl | hkv
      · exact h _ (List.mem_cons_self _ _)
      · exact ih (fun kv2 hkv2 => h kv2 (List.mem_cons_of_mem _ hkv2)) kv hkv

theorem tallyInv_processReview (env : Env) (active : List String) (r : String) :
    ∀ d : List (String × Tally), tallyInv d → tallyInv (processReview env active d r) := by
  intro d hd
  unfold processReview
  split
  · exact hd
  · have step1 : ∀ (b : List (String × Tally)) (a : String × List String),
        tallyInv b → tallyInv (if active.contains a.1 ∧
            a.2.any (fun kw => containsSub (strLower r) (strLower kw) ||
              containsSub (env.lemmatize r) (strLower kw)) then
          bumpAspect b a.1 (get_sentence_sentiment env r) (strTake r 150)
        else b) := by
      intro b a hb
      split
      · exact tallyInv_bumpAspect _ _ _ b hb
      · exact hb
    split
    · exact foldl_inv _ step1 _ _ hd
    · exact foldl_inv _ (fun b a hb => tallyInv_bumpAspect _ _ _ b hb) _ _
        (foldl_inv _ step1 _ _ hd)

theorem append_ne_empty_left (s t : String) (h : s ≠ "") : s ++ t ≠ "" := by
  intro hh
  apply h
  rw [String.ext_iff, String.data_append] at hh
  rw [String.ext_iff]
  exact (List.append_eq_nil.mp hh).1

theorem generate_aspect_reason_ne_empty (aspect sentiment : String) (t : Tally) :
    generate_aspect_reason aspect sentiment t ≠ "" := by
  unfold generate_aspect_reason
  split
  · repeat' apply append_ne_empty_left
    decide
  · split
    · repeat' apply append_ne_empty_left
      decide
    · split
      · repeat' apply append_ne_empty_left
        decide
      · repeat' apply append_ne_empty_left
        decide

theorem format_aspect_result_fields (name : String) (t : Tally) (h : 1 ≤ totalOf t) :
    (format_aspect_result name t).count = some (totalOf t) ∧
    (format_aspect_result name t).distribution = some ⟨t.positive, t.negative, t.neutral⟩ ∧
    (format_aspect_result name t).reason ≠ "" := by
  have h0 : ¬ totalOf t = 0 := by omega
  simp only [format_aspect_result]
  rw [if_neg h0]
  exact ⟨rfl, rfl, generate_aspect_reason_ne_empty _ _ _⟩

theorem finalizeAspects_mem (data : List (String × Tally)) (kv : String × AspectVerdict)
    (h : kv ∈ finalizeAspects data) :
    ∃ name t, 1 ≤ totalOf t ∧ kv = (capStr name, format_aspect_result name t) := by
  unfold finalizeAspects at h
  refine foldl_inv
    (P := fun acc => ∀ kv2 ∈ acc,
      ∃ name t, 1 ≤ totalOf t ∧ kv2 = (capStr name, format_aspect_result name t))
    _ ?_ data [] (by simp) kv h
  intro b a hb
  split
  · next hcond =>
    intro kv2 hkv2
    rcases mem_dictSet _ _ _ _ hkv2 with rfl | hkv2
    · exact ⟨a.1, a.2, hcond, rfl⟩
    · exact hb kv2 hkv2
  · exact hb

theorem analyze_aspects_mem (env : Env) (rs : List String) (cat : String)
    (kv : String × AspectVerdict) (h : kv ∈ analyze_aspects env rs cat) :
    kv = ("General", generalVerdict) ∨
    ∃ name t, 1 ≤ totalOf t ∧ kv = (capStr name, format_aspect_result name t) := by
  simp only [analyze_aspects] at h
  split at h
  · exact Or.inl (List.mem_singleton.mp h)
  · exact Or.inr (finalizeAspects_mem _ kv h)

theorem analyze_aspects_ne_nil (env : Env) (rs : List String) (cat : String) :
    analyze_aspects env rs cat ≠ [] := by
  simp only [analyze_aspects]
  split
  · simp
  · next hne =>
    intro hh
    rw [hh] at hne
    simp at hne

theorem joinSep_ne_empty (sep x : String) (xs : List String) (hx : x ≠ "") :
    joinSep sep (x :: xs) ≠ "" := by
  cases xs with
  | nil => simpa [joinSep] using hx
  | cons y ys =>
    rw [joinSep]
    exact append_ne_empty_left _ _ (append_ne_empty_left _ _ hx)

theorem half_lt_div_iff (p tot : Nat) (h : 0 < tot) :
    (1 : ℚ)/2 < (p : ℚ) / (tot : ℚ) ↔ tot < 2 * p := by
  have ht : (0 : ℚ) < (tot : ℚ) := by exact_mod_cast h
  rw [div_lt_div_iff₀ (by norm_num) ht, one_mul]
  norm_cast
  omega

theorem analyze_eq_core (env : Env) (pname : String) (rs : List ReviewLike) (h : rs ≠ []) :
    analyze_reviews env pname rs = analyze_reviews_core env pname rs := by
  unfold analyze_reviews
  rw [if_neg (by simpa [List.isEmpty_iff] using h)]

theorem core_aspects (env : Env) (pname : String) (rs : List ReviewLike) :
    (analyze_reviews_core env pname rs).aspects =
      analyze_aspects env (clean_reviews rs) (recommend_competitors pname).category := rfl

theorem core_summary (env : Env) (pname : String) (rs : List ReviewLike) :
    (analyze_reviews_core env pname rs).summary =
      build_summary (analyze_aspects env (clean_reviews rs) (recommend_competitors pname).category) := rfl

theorem core_themes (env : Env) (pname : String) (rs : List ReviewLike) :
    (analyze_reviews_core env pname rs).key_themes =
      extract_key_themes env (clean_reviews rs) := rfl

theorem core_count (env : Env) (pname : String) (rs : List ReviewLike) :
    (analyze_reviews_core env pname rs).review_count = (clean_reviews rs).length := rfl

theorem core_confidence (env : Env) (pname : String) (rs : List ReviewLike) :
    (analyze_reviews_core env pname rs).analysis_confidence =
      calculate_confidence (clean_reviews rs)
        (analyze_aspects env (clean_reviews rs) (recommend_competitors pname).category) := rfl

theorem core_overall (env : Env) (pname : String) (rs : List ReviewLike) :
    (analyze_reviews_core env pname rs).overall_feedback =
      generate_overall_feedback env (clean_reviews rs)
        (analyze_aspects env (clean_reviews rs) (recommend_competitors pname).category) := rfl

theorem core_recommended (env : Env) (pname : String) (rs : List ReviewLike) :
    (analyze_reviews_core env pname rs).recommended_products =
      build_competitor_recommendations (recommend_competitors pname).category
        (recommend_competitors pname).competitors
        (analyze_aspects env (clean_reviews rs) (recommend_competitors pname).category) := rfl

theorem bulletLine_ne_empty (kv : String × AspectVerdict) : bulletLine kv ≠ "" := by
  unfold bulletLine
  repeat' apply append_ne_empty_left
  decide

theorem build_summary_eq (aspects : List (String × AspectVerdict)) (h : aspects ≠ []) :
    build_summary aspects = joinSep "\n" (((sortDesc countKey aspects).take 5).map bulletLine) ∧
    build_summary aspects ≠ "" := by
  have hpos : 0 < ((sortDesc countKey aspects).take 5).length := by
    rw [List.length_take, length_sortDesc, lt_min_iff]
    exact ⟨by norm_num, List.length_pos.mpr h⟩
  obtain ⟨kv, rest, hL⟩ := List.exists_cons_of_ne_nil (List.length_pos.mp hpos)
  have hne2 : ¬((((sortDesc countKey aspects).take 5).map bulletLine).isEmpty = true) := by
    rw [hL]
    simp
  have hB : build_summary aspects =
      joinSep "\n" (((sortDesc countKey aspects).take 5).map bulletLine) := by
    simp only [build_summary]
    rw [if_neg hne2]
  refine ⟨hB, ?_⟩
  rw [hB, hL, List.map_cons]
  exact joinSep_ne_empty _ _ _ (bulletLine_ne_empty kv)

theorem smart_tv_to_tv (n : String) (h : containsSub n "smart tv" = true) :
    containsSub n "tv" = true :=
  containsSub_trans (by decide) h

theorem tv_any_eq (n : String) :
    (["tv", "television", "smart tv", "qled"].any (fun k => containsSub n k)) =
    (["tv", "television", "qled"].any (fun k => containsSub n k)) := by
  simp only [List.any_cons, List.any_nil]
  cases htv : containsSub n "tv"
  · have hsm : containsSub n "smart tv" = false := by
      cases hsm : containsSub n "smart tv"
      · rfl
      · exact absurd (smart_tv_to_tv n hsm) (by simp [htv])
    simp [hsm]
  · simp

theorem build_vs_spec (pname : String) (aspects : List (String × AspectVerdict)) :
    build_competitor_recommendations (recommend_competitors pname).category
      (recommend_competitors pname).competitors aspects =
    recommend_products_spec pname aspects := by
  simp only [build_competitor_recommendations, recommend_competitors, recommend_products_spec]
  rw [List.take_take]
  norm_num

/-! ### Claim theorems -/

/-- C6 (counterexample): `detect_product_category` does not use exactly
the keyword sets the spec enumerates.  On the product name `"5g"` the
code returns `"mobile"` (its mobile keyword list also contains `"5g"`),
while the claim's algorithm, using the spec's enumerated keyword lists,
returns `"general"`. -/
theorem c6_counterexample :
    detect_product_category "5g" = "mobile" ∧
    detect_category_claim "5g" = "general" ∧
    ("mobile" : String) ≠ "general" := by
  refine ⟨by decide, by decide, by decide⟩

/-- C6 (amended): `detect_product_category` equals the claim's
algorithm once `"5g"` is added to the mobile keyword list (the code's
extra `"smart tv"` keyword is behaviourally redundant, being a
superstring of `"tv"`); the empty product name yields `"general"`. -/
theorem c6_category_detection (name : String) :
    detect_product_category name = detect_category_amended name ∧
    detect_product_category "" = "general" := by
  refine ⟨?_, by decide⟩
  simp only [detect_product_category, detect_category_amended]
  cases hb : BRAND_TO_CATEGORY.find? (fun bc => containsSub (strLower name) (strLower bc.1)) with
  | some bc => rfl
  | none =>
    simp only [keywordLookup, amended_keyword_table]
    rw [tv_any_eq]

/-- C5: for a tally with positive total, the formatted sentiment is
`"positive"` iff `positive/total > 1/2`, else `"negative"` iff
`negative/total > 1/2`, else `"neutral"`; the reason is the template
selected by the resulting sentiment; and the tally `{positive: 1,
negative: 1, neutral: 0}` (ratio exactly one half) formats to
`"neutral"`. -/
theorem c5_tie_break (name : String) (t : Tally) (h : 0 < totalOf t) :
    ((format_aspect_result name t).sentiment = "positive" ↔
      (1 : ℚ)/2 < (t.positive : ℚ) / (totalOf t : ℚ)) ∧
    ((format_aspect_result name t).sentiment = "negative" ↔
      ¬ ((1 : ℚ)/2 < (t.positive : ℚ) / (totalOf t : ℚ)) ∧
        (1 : ℚ)/2 < (t.negative : ℚ) / (totalOf t : ℚ)) ∧
    ((format_aspect_result name t).sentiment = "neutral" ↔
      ¬ ((1 : ℚ)/2 < (t.positive : ℚ) / (totalOf t : ℚ)) ∧
        ¬ ((1 : ℚ)/2 < (t.negative : ℚ) / (totalOf t : ℚ))) ∧
    (format_aspect_result name t).reason =
      generate_aspect_reason name (format_aspect_result name t).sentiment t ∧
    (format_aspect_result "aspect" ⟨1, 1, 0, []⟩).sentiment = "neutral" := by
  have h0 : ¬ totalOf t = 0 := by omega
  rw [half_lt_div_iff t.positive (totalOf t) h, half_lt_div_iff t.negative (totalOf t) h]
  refine ⟨?_, ?_, ?_, ?_, by decide⟩
  · by_cases h1 : totalOf t < 2 * t.positive <;>
      by_cases h2 : totalOf t < 2 * t.negative <;>
      simp [format_aspect_result, if_neg h0, h1, h2]
  · by_cases h1 : totalOf t < 2 * t.positive <;>
      by_cases h2 : totalOf t < 2 * t.negative <;>
      simp [format_aspect_result, if_neg h0, h1, h2]
  · by_cases h1 : totalOf t < 2 * t.positive <;>
      by_cases h2 : totalOf t < 2 * t.negative <;>
      simp [format_aspect_result, if_neg h0, h1, h2]
  · simp only [format_aspect_result]
    rw [if_neg h0]

/-- C5 (witness): the tie-break theorem applied at the concrete tally
`{positive: 2, negative: 0, neutral: 1}`. -/
theorem c5_witness :
    0 < totalOf ⟨2, 0, 1, []⟩ ∧
    (((format_aspect_result "battery" ⟨2, 0, 1, []⟩).sentiment = "positive" ↔
      (1 : ℚ)/2 < ((Tally.mk 2 0 1 []).positive : ℚ) / (totalOf ⟨2, 0, 1, []⟩ : ℚ)) ∧
    ((format_aspect_result "battery" ⟨2, 0, 1, []⟩).sentiment = "negative" ↔
      ¬ ((1 : ℚ)/2 < ((Tally.mk 2 0 1 []).positive : ℚ) / (totalOf ⟨2, 0, 1, []⟩ : ℚ)) ∧
        (1 : ℚ)/2 < ((Tally.mk 2 0 1 []).negative : ℚ) / (totalOf ⟨2, 0, 1, []⟩ : ℚ)) ∧
    ((format_aspect_result "battery" ⟨2, 0, 1, []⟩).sentiment = "neutral" ↔
      ¬ ((1 : ℚ)/2 < ((Tally.mk 2 0 1 []).positive : ℚ) / (totalOf ⟨2, 0, 1, []⟩ : ℚ)) ∧
        ¬ ((1 : ℚ)/2 < ((Tally.mk 2 0 1 []).negative : ℚ) / (totalOf ⟨2, 0, 1, []⟩ : ℚ))) ∧
    (format_aspect_result "battery" ⟨2, 0, 1, []⟩).reason =
      generate_aspect_reason "battery" (format_aspect_result "battery" ⟨2, 0, 1, []⟩).sentiment
        ⟨2, 0, 1, []⟩ ∧
    (format_aspect_result "aspect" ⟨1, 1, 0, []⟩).sentiment = "neutral") :=
  ⟨by decide, c5_tie_break "battery" ⟨2, 0, 1, []⟩ (by decide)⟩

/-- C8: the embedded analyzer is a pure function of its inputs — two
calls with equal product name and review list (under the same
deterministic NLP environment) return equal results, and the sentence
sentiment classifier returns the same label for the same text. -/
theorem c8_determinism (env : Env) (p₁ p₂ : String) (rs₁ rs₂ : List ReviewLike)
    (t₁ t₂ : String) (hp : p₁ = p₂) (hr : rs₁ = rs₂) (ht : t₁ = t₂) :
    analyze_reviews env p₁ rs₁ = analyze_reviews env p₂ rs₂ ∧
    get_sentence_sentiment env t₁ = get_sentence_sentiment env t₂ := by
  subst hp
  subst hr
  subst ht
  exact ⟨rfl, rfl⟩

/-- C8 (witness): determinism instantiated at a concrete call. -/
theorem c8_witness :
    ("Samsung phone" : String) = "Samsung phone" ∧
    ([ReviewLike.rval (PyVal.pstr "good battery")] = [ReviewLike.rval (PyVal.pstr "good battery")]) ∧
    ("good battery" : String) = "good battery" ∧
    (analyze_reviews env0 "Samsung phone" [ReviewLike.rval (PyVal.pstr "good battery")] =
        analyze_reviews env0 "Samsung phone" [ReviewLike.rval (PyVal.pstr "good battery")] ∧
      get_sentence_sentiment env0 "good battery" = get_sentence_sentiment env0 "good battery") :=
  ⟨rfl, rfl, rfl, c8_determinism env0 "Samsung phone" "Samsung phone"
    [ReviewLike.rval (PyVal.pstr "good battery")] [ReviewLike.rval (PyVal.pstr "good battery")]
    "good battery" "good battery" rfl rfl rfl⟩

/-- C2 (counterexample): a record whose `text` field holds the non-string
value `5` is NOT dropped: `_clean_reviews` coerces it with `str` and
keeps `"5"`, and it counts toward `review_count`. -/
theorem c2_counterexample :
    clean_reviews [ReviewLike.rdict [("text", PyVal.pint 5)]] = ["5"] ∧
    (analyze_reviews env0 "p" [ReviewLike.rdict [("text", PyVal.pint 5)]]).review_count = 1 := by
  refine ⟨by decide, by decide⟩

/-- C2 (amended): a record none of whose candidate fields is truthy is
silently dropped — it contributes to neither the cleaned list nor
`review_count` — while a record whose first candidate field is truthy
but non-string is kept after `str` coercion. -/
theorem c2_malformed_dropped (f : List (String × PyVal)) (rs1 rs2 : List ReviewLike)
    (env : Env) (pname : String)
    (hall : ∀ k ∈ textFieldOrder, pyTruthy (dictGet f k) = false) :
    rawText (ReviewLike.rdict f) = "" ∧
    clean_reviews (rs1 ++ ReviewLike.rdict f :: rs2) = clean_reviews (rs1 ++ rs2) ∧
    (analyze_reviews env pname (rs1 ++ ReviewLike.rdict f :: rs2)).review_count =
      (analyze_reviews env pname (rs1 ++ rs2)).review_count ∧
    (∀ g : List (String × PyVal), pyTruthy (dictGet g "review_text") = true →
      rawText (ReviewLike.rdict g) = strTrim (pyStr (dictGet g "review_text"))) := by
  have h1 := hall "review_text" (by simp [textFieldOrder])
  have h2 := hall "review" (by simp [textFieldOrder])
  have h3 := hall "text" (by simp [textFieldOrder])
  have h4 := hall "body" (by simp [textFieldOrder])
  have h5 := hall "content" (by simp [textFieldOrder])
  have hemp : strIsEmpty "" = true := by decide
  have hraw : rawText (ReviewLike.rdict f) = "" := by
    simp [rawText, pyOr, h1, h2, h3, h4, h5, pyStr, strTrim]
  have hclean : clean_reviews (rs1 ++ ReviewLike.rdict f :: rs2) = clean_reviews (rs1 ++ rs2) := by
    simp [clean_reviews, List.filterMap_append, List.filterMap_cons, hraw, hemp]
  refine ⟨hraw, hclean, ?_, ?_⟩
  · by_cases hE : rs1 ++ rs2 = []
    · have h1E : rs1 = [] := (List.append_eq_nil.mp hE).1
      have h2E : rs2 = [] := (List.append_eq_nil.mp hE).2
      subst h1E
      subst h2E
      rw [analyze_eq_core env pname _ (by simp), core_count]
      simp [analyze_reviews, empty_analysis, clean_reviews, hraw, hemp]
    · have hne1 : rs1 ++ ReviewLike.rdict f :: rs2 ≠ [] := by simp
      rw [analyze_eq_core env pname _ hne1, analyze_eq_core env pname _ hE,
        core_count, core_count, hclean]
  · intro g hg
    simp [rawText, pyOr, hg]

/-- C2 (witness): the amended statement applied to the record
`{"rating": 4}`, appended after one well-formed review. -/
theorem c2_witness :
    (∀ k ∈ textFieldOrder, pyTruthy (dictGet [("rating", PyVal.pint 4)] k) = false) ∧
    (rawText (ReviewLike.rdict [("rating", PyVal.pint 4)]) = "" ∧
     clean_reviews ([ReviewLike.rval (PyVal.pstr "fine")] ++
        ReviewLike.rdict [("rating", PyVal.pint 4)] :: []) =
       clean_reviews ([ReviewLike.rval (PyVal.pstr "fine")] ++ []) ∧
     (analyze_reviews env0 "p" ([ReviewLike.rval (PyVal.pstr "fine")] ++
        ReviewLike.rdict [("rating", PyVal.pint 4)] :: [])).review_count =
       (analyze_reviews env0 "p" ([ReviewLike.rval (PyVal.pstr "fine")] ++ [])).review_count ∧
     (∀ g : List (String × PyVal), pyTruthy (dictGet g "review_text") = true →
       rawText (ReviewLike.rdict g) = strTrim (pyStr (dictGet g "review_text")))) :=
  ⟨by decide, c2_malformed_dropped [("rating", PyVal.pint 4)]
    [ReviewLike.rval (PyVal.pstr "fine")] [] env0 "p" (by decide)⟩

/-- C3 (counterexample): a record with `review_text` present, non-null
but empty does NOT yield empty text and get discarded — the `or`-chain
falls through to the later `review` field and keeps `"great"`. -/
theorem c3_counterexample :
    clean_reviews
        [ReviewLike.rdict [("review_text", PyVal.pstr ""), ("review", PyVal.pstr "great")]] =
      ["great"] ∧
    clean_reviews
        [ReviewLike.rdict [("review_text", PyVal.pstr ""), ("review", PyVal.pstr "great")]] ≠
      [] := by
  refine ⟨by decide, by decide⟩

/-- C3 (amended): the text taken from a record is the first TRUTHY
candidate field in the order `review_text, review, text, body, content`
(string-converted and stripped); falsy fields — including a present but
empty `review_text` — fall through, and if no field is truthy the entry
cleans to empty and is discarded. -/
theorem c3_first_truthy_field (f : List (String × PyVal)) :
    rawText (ReviewLike.rdict f) =
      (match textFieldOrder.find? (fun k => pyTruthy (dictGet f k)) with
       | some k => strTrim (pyStr (dictGet f k))
       | none => "") := by
  have hemp : strTrim (pyStr (PyVal.pstr "")) = "" := by decide
  cases h1 : pyTruthy (dictGet f "review_text") <;>
  cases h2 : pyTruthy (dictGet f "review") <;>
  cases h3 : pyTruthy (dictGet f "text") <;>
  cases h4 : pyTruthy (dictGet f "body") <;>
  cases h5 : pyTruthy (dictGet f "content") <;>
    simp [rawText, pyOr, textFieldOrder, List.find?, h1, h2, h3, h4, h5, hemp]

/-- C1 (counterexample): on a non-empty input whose single entry cleans
to empty text, `review_count` is `0` but the aspects map is non-empty
(it holds the synthesized `General` entry), the confidence is `"Low"`
rather than `"None"`, and the overall feedback is not the fixed
no-reviews message. -/
theorem c1_counterexample :
    (analyze_reviews env0 "x" [ReviewLike.rval (PyVal.pstr "")]).review_count = 0 ∧
    (analyze_reviews env0 "x" [ReviewLike.rval (PyVal.pstr "")]).aspects ≠ [] ∧
    (analyze_reviews env0 "x" [ReviewLike.rval (PyVal.pstr "")]).analysis_confidence = "Low" ∧
    (analyze_reviews env0 "x" [ReviewLike.rval (PyVal.pstr "")]).overall_feedback ≠
      "No reviews available for analysis" := by
  refine ⟨by decide, by decide, by decide, by decide⟩

/-- C1 (amended): whenever `review_count = 0`, `key_themes` is empty;
the full empty invariant (`aspects` empty, confidence `"None"`, fixed
no-reviews message) holds exactly when the input list itself is empty,
while a non-empty input whose entries all clean to empty yields the
`General` aspects map, confidence `"Low"` and the zero-percent
mixed-reviews message. -/
theorem c1_zero_reviews (env : Env) (pname : String) (rs : List ReviewLike)
    (h : (analyze_reviews env pname rs).review_count = 0) :
    (analyze_reviews env pname rs).key_themes = [] ∧
    (rs = [] →
      (analyze_reviews env pname rs).aspects = [] ∧
      (analyze_reviews env pname rs).analysis_confidence = "None" ∧
      (analyze_reviews env pname rs).overall_feedback = "No reviews available for analysis") ∧
    (rs ≠ [] →
      (analyze_reviews env pname rs).aspects = [("General", generalVerdict)] ∧
      (analyze_reviews env pname rs).analysis_confidence = "Low" ∧
      (analyze_reviews env pname rs).overall_feedback =
        "Mixed reviews (0% positive, 0% negative).") := by
  cases rs with
  | nil =>
    refine ⟨rfl, fun _ => ⟨rfl, rfl, rfl⟩, fun hc => absurd rfl hc⟩
  | cons a as =>
    have hne : (a :: as) ≠ ([] : List ReviewLike) := by simp
    rw [analyze_eq_core env pname _ hne] at h ⊢
    rw [core_count] at h
    have hclean : clean_reviews (a :: as) = [] := List.length_eq_zero.mp h
    refine ⟨?_, fun hc => absurd hc hne, fun _ => ⟨?_, ?_, ?_⟩⟩
    · rw [core_themes, hclean]
      exact rfl
    · rw [core_aspects, hclean]
      exact rfl
    · rw [core_confidence, hclean]
      exact rfl
    · rw [core_overall, hclean]
      have hasp : analyze_aspects env [] (recommend_competitors pname).category =
          [("General", generalVerdict)] := rfl
      have hcnt : countSents env [] = (0, 0, 0) := rfl
      rw [hasp]
      simp only [generate_overall_feedback]
      rw [hcnt]
      decide

/-- C1 (witness): the amended statement applied to the genuinely empty
input list. -/
theorem c1_witness :
    (analyze_reviews env0 "w" []).review_count = 0 ∧
    ((analyze_reviews env0 "w" []).key_themes = [] ∧
     (([] : List ReviewLike) = [] →
       (analyze_reviews env0 "w" []).aspects = [] ∧
       (analyze_reviews env0 "w" []).analysis_confidence = "None" ∧
       (analyze_reviews env0 "w" []).overall_feedback = "No reviews available for analysis") ∧
     (([] : List ReviewLike) ≠ [] →
       (analyze_reviews env0 "w" []).aspects = [("General", generalVerdict)] ∧
       (analyze_reviews env0 "w" []).analysis_confidence = "Low" ∧
       (analyze_reviews env0 "w" []).overall_feedback =
         "Mixed reviews (0% positive, 0% negative).")) :=
  ⟨by decide, c1_zero_reviews env0 "w" [] (by decide)⟩

/-- C4 (counterexample): an analysis whose only aspect is the
synthesized `General` entry violates the claim — that entry has no
`count` and no `distribution` field at all. -/
theorem c4_counterexample :
    (analyze_reviews env0 "x" [ReviewLike.rval (PyVal.pstr "asdf")]).aspects =
      [("General", generalVerdict)] ∧
    generalVerdict.count = none ∧
    generalVerdict.distribution = none := by
  refine ⟨by decide, rfl, rfl⟩

/-- C4 (amended): every entry of the aspects map either is the
synthesized `General` entry (neutral sentiment, fixed non-empty reason,
no `count`/`distribution` fields), or carries a distribution whose
components sum to `count`, with `count ≥ 1` and a non-empty reason. -/
theorem c4_tally_consistency (env : Env) (pname : String) (rs : List ReviewLike)
    (kv : String × AspectVerdict) (h : kv ∈ (analyze_reviews env pname rs).aspects) :
    (kv.1 = "General" ∧ kv.2 = generalVerdict) ∨
    (∃ p n m, kv.2.distribution = some ⟨p, n, m⟩ ∧ kv.2.count = some (p + n + m) ∧
      1 ≤ p + n + m ∧ kv.2.reason ≠ "") := by
  cases rs with
  | nil =>
    simp [analyze_reviews, empty_analysis] at h
  | cons a as =>
    rw [analyze_eq_core env pname _ (by simp), core_aspects] at h
    rcases analyze_aspects_mem _ _ _ kv h with hgen | ⟨name, t, ht, hkv⟩
    · left
      rw [hgen]
      exact ⟨rfl, rfl⟩
    · right
      obtain ⟨hc, hd, hr⟩ := format_aspect_result_fields name t ht
      refine ⟨t.positive, t.negative, t.neutral, ?_, ?_, ht, ?_⟩
      · rw [hkv]
        exact hd
      · rw [hkv]
        exact hc
      · rw [hkv]
        exact hr

/-- C4 (witness): the amended statement applied to the `Battery` entry
produced by one positive battery review. -/
theorem c4_witness :
    (("Battery", AspectVerdict.mk "positive" "Users praised battery in 1/1 mentions"
        (some 1) (some ⟨1, 0, 0⟩)) ∈
      (analyze_reviews env0 "Samsung phone" [ReviewLike.rval (PyVal.pstr "good battery")]).aspects) ∧
    ((("Battery", AspectVerdict.mk "positive" "Users praised battery in 1/1 mentions"
          (some 1) (some ⟨1, 0, 0⟩)).1 = "General" ∧
      ("Battery", AspectVerdict.mk "positive" "Users praised battery in 1/1 mentions"
          (some 1) (some ⟨1, 0, 0⟩)).2 = generalVerdict) ∨
     (∃ p n m, ("Battery", AspectVerdict.mk "positive" "Users praised battery in 1/1 mentions"
          (some 1) (some ⟨1, 0, 0⟩)).2.distribution = some ⟨p, n, m⟩ ∧
        ("Battery", AspectVerdict.mk "positive" "Users praised battery in 1/1 mentions"
          (some 1) (some ⟨1, 0, 0⟩)).2.count = some (p + n + m) ∧
        1 ≤ p + n + m ∧
        ("Battery", AspectVerdict.mk "positive" "Users praised battery in 1/1 mentions"
          (some 1) (some ⟨1, 0, 0⟩)).2.reason ≠ "")) :=
  ⟨by decide, c4_tally_consistency env0 "Samsung phone"
    [ReviewLike.rval (PyVal.pstr "good battery")] _ (by decide)⟩

/-- C7 (counterexample): theme sentiment is not a three-way majority
vote.  Five mentioning reviews classifying as 1 positive, 0 negative
and 4 neutral yield theme sentiment `"positive"` (the code only
compares positive against negative counts), not the `"neutral"` the
claim requires. -/
theorem c7_counterexample :
    extract_key_themes env0 ["price good", "price a", "price b", "price c", "price d"] =
      [⟨"Value for Money", "positive", "Positive feedback in 1/5 reviews", 5⟩] ∧
    countSents env0 ["price good", "price a", "price b", "price c", "price d"] = (1, 0, 4) ∧
    ("positive" : String) ≠ "neutral" := by
  refine ⟨by decide, by decide, by decide⟩

/-- C7 (amended): every reported theme comes from the fixed pattern
table; its mentions are the reviews containing one of its keywords; its
sentiment is `"positive"` iff positive mentions strictly outnumber
negative ones, `"negative"` iff the converse, and `"neutral"` exactly
when the two counts are equal (neutral mentions are ignored by the
comparison); the reason is the matching template over winning count and
total mentions. -/
theorem c7_theme_majority (env : Env) (reviews : List String) (t : Theme)
    (h : t ∈ extract_key_themes env reviews) :
    ∃ kws ms,
      (t.theme, kws) ∈ theme_patterns ∧
      ms = reviews.filter (fun r => kws.any (fun k => containsSub (strLower r) k)) ∧
      1 ≤ ms.length ∧
      t.mention_count = ms.length ∧
      ((countSents env ms).1 > (countSents env ms).2.1 ∧ t.sentiment = "positive" ∧
        t.reason = "Positive feedback in " ++ toString (countSents env ms).1 ++ "/" ++
          toString ((countSents env ms).1 + (countSents env ms).2.1 + (countSents env ms).2.2) ++
          " reviews" ∨
       (countSents env ms).2.1 > (countSents env ms).1 ∧ t.sentiment = "negative" ∧
        t.reason = "Concerns raised in " ++ toString (countSents env ms).2.1 ++ "/" ++
          toString ((countSents env ms).1 + (countSents env ms).2.1 + (countSents env ms).2.2) ++
          " reviews" ∨
       (countSents env ms).1 = (countSents env ms).2.1 ∧ t.sentiment = "neutral" ∧
        t.reason = "Mixed opinions across " ++
          toString ((countSents env ms).1 + (countSents env ms).2.1 + (countSents env ms).2.2) ++
          " reviews") := by
  simp only [extract_key_themes] at h
  have h2 := List.mem_of_mem_take h
  rw [mem_sortDesc] at h2
  rcases List.mem_filterMap.mp h2 with ⟨nk, hmem, hf⟩
  obtain ⟨nm, kws⟩ := nk
  dsimp only at hf
  split at hf
  · next hlen =>
    injection hf with hf
    subst hf
    refine ⟨kws, _, hmem, rfl, hlen, rfl, ?_⟩
    dsimp only
    simp only [analyze_theme_sentiment]
    split
    · next hgt =>
      exact Or.inl ⟨hgt, rfl, rfl⟩
    · split
      · next hgt2 =>
        exact Or.inr (Or.inl ⟨hgt2, rfl, rfl⟩)
      · exact Or.inr (Or.inr ⟨by omega, rfl, rfl⟩)
  · simp at hf

/-- C7 (witness): the amended statement applied to the single review
`"price good"`, which activates the `Value for Money` theme. -/
theorem c7_witness :
    ((⟨"Value for Money", "positive", "Positive feedback in 1/1 reviews", 1⟩ : Theme) ∈
      extract_key_themes env0 ["price good"]) ∧
    (∃ kws ms,
      ((⟨"Value for Money", "positive", "Positive feedback in 1/1 reviews", 1⟩ : Theme).theme,
        kws) ∈ theme_patterns ∧
      ms = ["price good"].filter (fun r => kws.any (fun k => containsSub (strLower r) k)) ∧
      1 ≤ ms.length ∧
      (⟨"Value for Money", "positive", "Positive feedback in 1/1 reviews", 1⟩ : Theme).mention_count =
        ms.length ∧
      ((countSents env0 ms).1 > (countSents env0 ms).2.1 ∧
        (⟨"Value for Money", "positive", "Positive feedback in 1/1 reviews", 1⟩ : Theme).sentiment =
          "positive" ∧
        (⟨"Value for Money", "positive", "Positive feedback in 1/1 reviews", 1⟩ : Theme).reason =
          "Positive feedback in " ++ toString (countSents env0 ms).1 ++ "/" ++
          toString ((countSents env0 ms).1 + (countSents env0 ms).2.1 + (countSents env0 ms).2.2) ++
          " reviews" ∨
       (countSents env0 ms).2.1 > (countSents env0 ms).1 ∧
        (⟨"Value for Money", "positive", "Positive feedback in 1/1 reviews", 1⟩ : Theme).sentiment =
          "negative" ∧
        (⟨"Value for Money", "positive", "Positive feedback in 1/1 reviews", 1⟩ : Theme).reason =
          "Concerns raised in " ++ toString (countSents env0 ms).2.1 ++ "/" ++
          toString ((countSents env0 ms).1 + (countSents env0 ms).2.1 + (countSents env0 ms).2.2) ++
          " reviews" ∨
       (countSents env0 ms).1 = (countSents env0 ms).2.1 ∧
        (⟨"Value for Money", "positive", "Positive feedback in 1/1 reviews", 1⟩ : Theme).sentiment =
          "neutral" ∧
        (⟨"Value for Money", "positive", "Positive feedback in 1/1 reviews", 1⟩ : Theme).reason =
          "Mixed opinions across " ++
          toString ((countSents env0 ms).1 + (countSents env0 ms).2.1 + (countSents env0 ms).2.2) ++
          " reviews")) :=
  ⟨by decide, c7_theme_majority env0 ["price good"]
    ⟨"Value for Money", "positive", "Positive feedback in 1/1 reviews", 1⟩ (by decide)⟩

/-- C9: the recommended products of an analysis of a non-empty input
are exactly the claim's construction — at most four entries, the
competitor table of the detected category in order with the detected
brand removed, each carrying its positional rationale plus at most one
weak-aspect clause checked in battery/camera/performance order. -/
theorem c9_recommendations (env : Env) (pname : String) (rs : List ReviewLike) (h : rs ≠ []) :
    (analyze_reviews env pname rs).recommended_products =
      recommend_products_spec pname (analyze_reviews env pname rs).aspects ∧
    (analyze_reviews env pname rs).recommended_products.length ≤ 4 := by
  rw [analyze_eq_core env pname rs h, core_recommended, core_aspects]
  constructor
  · exact build_vs_spec pname _
  · simp only [build_competitor_recommendations]
    rw [List.length_map, List.enum_length, List.length_take]
    exact Nat.min_le_left _ _

/-- C9 (witness): the recommendation theorem applied to one concrete
analysis. -/
theorem c9_witness :
    ([ReviewLike.rval (PyVal.pstr "good battery")] ≠ ([] : List ReviewLike)) ∧
    ((analyze_reviews env0 "Oppo phone"
        [ReviewLike.rval (PyVal.pstr "good battery")]).recommended_products =
      recommend_products_spec "Oppo phone"
        (analyze_reviews env0 "Oppo phone"
          [ReviewLike.rval (PyVal.pstr "good battery")]).aspects ∧
     (analyze_reviews env0 "Oppo phone"
        [ReviewLike.rval (PyVal.pstr "good battery")]).recommended_products.length ≤ 4) :=
  ⟨by decide, c9_recommendations env0 "Oppo phone"
    [ReviewLike.rval (PyVal.pstr "good battery")] (by decide)⟩

/-- C10: the result always carries a non-empty `summary` string:
`"No customer feedback found"` for an empty input list, otherwise the
bullet-list rendering produced by `_build_summary` from the aspects map
— at most five aspects, drawn from the map, in descending `count`
order — and `"Limited feedback available"` when `_build_summary`
receives an empty aspects map. -/
theorem c10_summary_field (env : Env) (pname : String) (rs : List ReviewLike)
    (aspects : List (String × AspectVerdict)) :
    (analyze_reviews env pname []).summary = "No customer feedback found" ∧
    (rs ≠ [] →
      (analyze_reviews env pname rs).summary =
        build_summary (analyze_reviews env pname rs).aspects ∧
      (analyze_reviews env pname rs).summary ≠ "") ∧
    build_summary [] = "Limited feedback available" ∧
    (aspects ≠ [] →
      build_summary aspects = joinSep "\n" (((sortDesc countKey aspects).take 5).map bulletLine) ∧
      ((sortDesc countKey aspects).take 5).length ≤ 5 ∧
      ((sortDesc countKey aspects).take 5).Pairwise (fun a b => countKey b ≤ countKey a) ∧
      (∀ kv ∈ (sortDesc countKey aspects).take 5, kv ∈ aspects)) := by
  refine ⟨rfl, ?_, rfl, ?_⟩
  · intro h
    rw [analyze_eq_core env pname rs h, core_summary, core_aspects]
    have hA := analyze_aspects_ne_nil env (clean_reviews rs) (recommend_competitors pname).category
    obtain ⟨heq, hne⟩ := build_summary_eq _ hA
    exact ⟨rfl, hne⟩
  · intro h
    obtain ⟨heq, _⟩ := build_summary_eq aspects h
    refine ⟨heq, ?_, ?_, ?_⟩
    · rw [List.length_take]
      exact Nat.min_le_left _ _
    · exact List.Pairwise.sublist (List.take_sublist 5 _) (pairwise_sortDesc countKey aspects)
    · intro kv hkv
      exact (mem_sortDesc countKey kv aspects).mp (List.mem_of_mem_take hkv)

/-- C10 (witness): the summary theorem applied to one concrete
analysis and one concrete aspects map. -/
theorem c10_witness :
    ([ReviewLike.rval (PyVal.pstr "hello")] ≠ ([] : List ReviewLike)) ∧
    ((analyze_reviews env0 "w" [ReviewLike.rval (PyVal.pstr "hello")]).summary =
        build_summary (analyze_reviews env0 "w" [ReviewLike.rval (PyVal.pstr "hello")]).aspects ∧
      (analyze_reviews env0 "w" [ReviewLike.rval (PyVal.pstr "hello")]).summary ≠ "") :=
  ⟨by decide, (c10_summary_field env0 "w" [ReviewLike.rval (PyVal.pstr "hello")] []).2.1
    (by decide)⟩

end AspectAnalyzer
